import Mathlib

/-!
Verification of the event-driven black-bars overlay tool (`src/main.py`).

The program watches the Windows foreground window; when its title is in the
monitored set and the window is not minimized it shows an opaque black
backdrop window directly behind it in the z-order and hides the taskbar,
restoring both otherwise.

We embed the program shallowly: the live OS state that the program queries
and mutates (foreground window, window text, minimized bits, monitor info,
z-order, per-window visibility, taskbar handles, a handle allocator) is a
record `OS`; the program's module-level globals (`black_window_hwnd`,
`black_bars_active`, `shutting_down`, `hook_handles`, the tray icon, the
monitored title list `WINDOW_TITLES`) together with the OS and a log of the
observable Win32 calls issued so far form the record `Sys`.  Each Python
function becomes a Lean function `Sys → ... → Sys` (queries are pure reads).

OS-call semantics modeled:
* `CreateWindowEx` allocates a fresh handle, places it at the front of the
  z-order, created hidden (`WS_POPUP` without `WS_VISIBLE`).
* `SetWindowPos(h, after, ...)` moves `h` to sit directly after (below)
  `after` in the front-to-back z-order list; with `SWP_SHOWWINDOW` it also
  makes `h` visible.
* `ShowWindow(h, SW_HIDE/SW_SHOW)` toggles visibility only.
* `DestroyWindow` removes the window from the z-order.
* `GetWindow(h, GW_HWNDNEXT)` returns the entry directly after the first
  occurrence of `h` in the z-order list, `0` if there is none.
Queries that can fail at the Win32 layer (`GetWindowText`, `IsIconic`,
`GetMonitorInfo`) are modeled as `Option`-valued fields of `OS`, with the
Python `try/except` fallbacks translated explicitly.
-/

namespace BlackBars

/-- A monitor rectangle `(left, top, right, bottom)` in virtual-screen
coordinates, as returned by `get_monitor_rect`. -/
abbrev MonitorRect := Int × Int × Int × Int

/-- One observable Win32 call issued by the program. -/
inductive Effect where
  /-- A `CreateWindowEx` call for the black backdrop, with the geometry passed. -/
  | create (hwnd : Nat) (left top width height : Int)
  /-- A `SetWindowPos(hwnd, insertAfterHwnd, ...)` call; `showFlag` records whether
  `SWP_SHOWWINDOW` was included in the flags. -/
  | setPos (hwnd insertAfterHwnd : Nat) (showFlag : Bool)
  /-- A `ShowWindow(hwnd, SW_SHOW)` call (`visibleFlag = true`) or `SW_HIDE`. -/
  | showWin (hwnd : Nat) (visibleFlag : Bool)
  /-- A `DestroyWindow hwnd` call. -/
  | destroy (hwnd : Nat)
  /-- An `UnhookWinEvent hook` call. -/
  | unhook (hook : Nat)
  deriving DecidableEq, Repr

/-- The live OS window-manager state observed and mutated by the program. -/
structure OS where
  /-- Result of `GetForegroundWindow()`. -/
  foreground : Nat
  /-- Result of `GetWindowText h`; `none` models the call raising. -/
  winText : Nat → Option String
  /-- Result of `IsIconic h`; `none` models the call raising. -/
  iconic : Nat → Option Bool
  /-- Result of `MonitorFromWindow` + `GetMonitorInfo`, projected to the full
  `Monitor` rect; `none` models failure. -/
  monitorInfo : Nat → Option MonitorRect
  /-- Top-level windows front-to-back. -/
  zorder : List Nat
  /-- Per-window visibility. -/
  visible : Nat → Bool
  /-- Handle of the `Shell_TrayWnd` window, if present. -/
  taskbar : Option Nat
  /-- Handle of the separate Start-button window, if present. -/
  startButton : Option Nat
  /-- Next handle `CreateWindowEx` will return. -/
  nextHwnd : Nat

/-- Whole-system state: OS state, the program's globals, and the log of
observable Win32 calls issued so far (oldest first). -/
structure Sys where
  os : OS
  /-- Monitored window titles (global `WINDOW_TITLES`), fixed after startup. -/
  WINDOW_TITLES : List String
  /-- Global `black_window_hwnd`. -/
  black_window_hwnd : Option Nat
  /-- Global `black_bars_active`. -/
  black_bars_active : Bool
  /-- Global `shutting_down`. -/
  shutting_down : Bool
  /-- Global `hook_handles`. -/
  hook_handles : List Nat
  /-- Whether the tray icon object is alive (global `tray_icon`). -/
  tray_icon : Bool
  /-- Log of observable Win32 calls. -/
  fx : List Effect

/-- Append one observable call to the log. -/
def emit (e : Effect) (s : Sys) : Sys := { s with fx := s.fx ++ [e] }

/-- Model of `GetWindow(h, GW_HWNDNEXT)`: the window directly after the first
occurrence of `h` in the front-to-back list, `0` if none. -/
def windowBelow : List Nat → Nat → Nat
  | [], _ => 0
  | x :: xs, h => if x = h then xs.headD 0 else windowBelow xs h

/-- Insert `h` directly after the first occurrence of `a`; at the end if `a`
does not occur. -/
def insertAfterAux : List Nat → Nat → Nat → List Nat
  | [], h, _ => [h]
  | x :: xs, h, a => if x = a then x :: h :: xs else x :: insertAfterAux xs h a

/-- Model of the `SetWindowPos(h, a, ...)` z-order semantics: remove `h`, then re-insert
it directly after `a`. -/
def insertAfter (z : List Nat) (h a : Nat) : List Nat :=
  insertAfterAux (z.filter (fun x => x ≠ h)) h a

/-- Model of the `ShowWindow(h, nCmdShow)` semantics: set visibility, log the call. -/
def showWindowOp (s : Sys) (h : Nat) (vis : Bool) : Sys :=
  let s1 := emit (.showWin h vis) s
  { s1 with os := { s1.os with
      visible := fun x => if x = h then vis else s1.os.visible x } }

/-! ## Window / monitor queries (`get_*`, `is_*` in `main.py`) -/

/-- Embedding of `get_foreground_window`. -/
def get_foreground_window (s : Sys) : Nat := s.os.foreground

/-- Embedding of `get_window_title`: `GetWindowText` under `try/except`, returning `""`
when the underlying query fails. -/
def get_window_title (s : Sys) (hwnd : Nat) : String :=
  match s.os.winText hwnd with
  | some t => t
  | none => ""

/-- Embedding of `is_window_minimized`: `IsIconic` under `try/except`, returning `false`
when the underlying query fails. -/
def is_window_minimized (s : Sys) (hwnd : Nat) : Bool :=
  match s.os.iconic hwnd with
  | some b => b
  | none => false

/-- Embedding of `is_monitored_window`: exact membership of the title in `WINDOW_TITLES`. -/
def is_monitored_window (s : Sys) (hwnd : Nat) : Bool :=
  s.WINDOW_TITLES.contains (get_window_title s hwnd)

/-- Embedding of `get_monitor_info`: monitor info hosting the window, `None` on
failure (the `try/except` in the source). -/
def get_monitor_info (s : Sys) (hwnd : Nat) : Option MonitorRect :=
  s.os.monitorInfo hwnd

/-- Embedding of `get_monitor_rect`: the full `Monitor` rect from `get_monitor_info`,
`None` if that was `None`. -/
def get_monitor_rect (s : Sys) (hwnd : Nat) : Option MonitorRect :=
  match get_monitor_info s hwnd with
  | some info => some info
  | none => none

/-! ## Black backdrop window -/

/-- Embedding of `create_black_window`: computes the geometry from the monitor rect and
calls `CreateWindowEx`, which allocates a fresh handle at the front of the
z-order, initially hidden.  Returns the updated system and the new handle. -/
def create_black_window (s : Sys) (monitor_rect : MonitorRect) : Sys × Nat :=
  let hwnd := s.os.nextHwnd
  let left := monitor_rect.1
  let top := monitor_rect.2.1
  let width := monitor_rect.2.2.1 - left
  let height := monitor_rect.2.2.2 - top
  let s1 := emit (.create hwnd left top width height) s
  ({ s1 with os := { s1.os with
      nextHwnd := hwnd + 1,
      zorder := hwnd :: s1.os.zorder,
      visible := fun x => if x = hwnd then false else s1.os.visible x } },
   hwnd)

/-- Embedding of `show_black_window`: `SetWindowPos(hwnd, monitored_hwnd, ..., SWP_NOMOVE
| SWP_NOSIZE | SWP_NOACTIVATE | SWP_SHOWWINDOW)` — place the backdrop
directly below the monitored window and make it visible. -/
def show_black_window (s : Sys) (hwnd monitored_hwnd : Nat) : Sys :=
  let s1 := emit (.setPos hwnd monitored_hwnd true) s
  { s1 with os := { s1.os with
      zorder := insertAfter s1.os.zorder hwnd monitored_hwnd,
      visible := fun x => if x = hwnd then true else s1.os.visible x } }

/-- Embedding of `hide_black_window`: `ShowWindow(hwnd, SW_HIDE)` under `try/except`. -/
def hide_black_window (s : Sys) (hwnd : Nat) : Sys :=
  showWindowOp s hwnd false

/-- Embedding of `destroy_black_window`: `DestroyWindow hwnd` under `try/except`. -/
def destroy_black_window (s : Sys) (hwnd : Nat) : Sys :=
  let s1 := emit (.destroy hwnd) s
  { s1 with os := { s1.os with
      zorder := s1.os.zorder.filter (fun x => x ≠ hwnd),
      visible := fun x => if x = hwnd then false else s1.os.visible x } }

/-! ## Taskbar management -/

/-- Embedding of `find_taskbar`: `FindWindow("Shell_TrayWnd", None) or None`. -/
def find_taskbar (s : Sys) : Option Nat := s.os.taskbar

/-- Embedding of `find_start_button`: only looked up when the taskbar was found. -/
def find_start_button (s : Sys) : Option Nat :=
  match find_taskbar s with
  | some _ => s.os.startButton
  | none => none

/-- Embedding of `hide_taskbar`: hide the taskbar if found, then the Start button if
found. -/
def hide_taskbar (s : Sys) : Sys :=
  let s1 := match find_taskbar s with
    | some t => showWindowOp s t false
    | none => s
  match find_start_button s1 with
  | some b => showWindowOp s1 b false
  | none => s1

/-- Embedding of `show_taskbar`: show the taskbar if found, then the Start button if
found. -/
def show_taskbar (s : Sys) : Sys :=
  let s1 := match find_taskbar s with
    | some t => showWindowOp s t true
    | none => s
  match find_start_button s1 with
  | some b => showWindowOp s1 b true
  | none => s1

/-! ## Black bars state management -/

/-- Embedding of `activate_black_bars`: resolve the monitor rect first (early return,
leaving everything unchanged, when it is unavailable); then create the
backdrop only if `black_window_hwnd is None`; then show it behind the
monitored window, hide the taskbar and set `black_bars_active = True`. -/
def activate_black_bars (s : Sys) (monitored_hwnd : Nat) : Sys :=
  match get_monitor_rect s monitored_hwnd with
  | none => s
  | some monitor_rect =>
    let p : Sys × Nat :=
      match s.black_window_hwnd with
      | none =>
        let q := create_black_window s monitor_rect
        ({ q.1 with black_window_hwnd := some q.2 }, q.2)
      | some h => (s, h)
    let s2 := show_black_window p.1 p.2 monitored_hwnd
    let s3 := hide_taskbar s2
    { s3 with black_bars_active := true }

/-- Embedding of `deactivate_black_bars`: hide the backdrop if `black_window_hwnd` is
truthy (a Python-truthiness test, so handle `0` is skipped like `None`),
show the taskbar, clear `black_bars_active`. -/
def deactivate_black_bars (s : Sys) : Sys :=
  let s1 := match s.black_window_hwnd with
    | some h => if h = 0 then s else hide_black_window s h
    | none => s
  let s2 := show_taskbar s1
  { s2 with black_bars_active := false }

/-- Embedding of `ensure_black_window_z_order`: no-op when no backdrop exists; otherwise
read `GetWindow(monitored, GW_HWNDNEXT)` and re-issue `SetWindowPos`
(without `SWP_SHOWWINDOW`) only when the window directly below the
monitored window is not the backdrop. -/
def ensure_black_window_z_order (s : Sys) (monitored_hwnd : Nat) : Sys :=
  match s.black_window_hwnd with
  | none => s
  | some bw =>
    let window_below := windowBelow s.os.zorder monitored_hwnd
    if window_below ≠ bw then
      let s1 := emit (.setPos bw monitored_hwnd false) s
      { s1 with os := { s1.os with
          zorder := insertAfter s1.os.zorder bw monitored_hwnd } }
    else s

/-- Embedding of `check_and_update_state`: the single re-evaluation entry point, driven
entirely by live OS queries. -/
def check_and_update_state (s : Sys) : Sys :=
  let foreground_hwnd := get_foreground_window s
  if is_monitored_window s foreground_hwnd &&
      !is_window_minimized s foreground_hwnd then
    if !s.black_bars_active then
      activate_black_bars s foreground_hwnd
    else
      ensure_black_window_z_order s foreground_hwnd
  else
    if s.black_bars_active then deactivate_black_bars s else s

/-! ## Event hook callback and cleanup -/

/-- Embedding of `win_event_callback`: discards the notification when `shutting_down`,
otherwise re-evaluates from live state; the payload parameters are never
consulted. -/
def win_event_callback (s : Sys)
    (hWinEventHook event hwnd idObject idChild idEventThread
      dwmsEventTime : Nat) : Sys :=
  if s.shutting_down then s else check_and_update_state s

/-- Embedding of `uninstall_event_hooks`: `UnhookWinEvent` on each handle in order. -/
def uninstall_event_hooks (s : Sys) (hooks : List Nat) : Sys :=
  hooks.foldl (fun acc h => emit (.unhook h) acc) s

/-- Embedding of `cleanup`: stop the tray icon, uninstall the hooks (clearing the list),
unconditionally show the taskbar, destroy the backdrop if `black_window_hwnd`
is truthy (Python truthiness, so handle `0` is skipped) and clear it. -/
def cleanup (s : Sys) : Sys :=
  let s1 := { s with tray_icon := false }
  let s2 := if s1.hook_handles.isEmpty then s1
    else { (uninstall_event_hooks s1 s1.hook_handles) with hook_handles := [] }
  let s3 := show_taskbar s2
  match s3.black_window_hwnd with
  | some h =>
    if h = 0 then s3
    else { (destroy_black_window s3 h) with black_window_hwnd := none }
  | none => s3

/-! ## List-level lemmas about the z-order model -/

theorem windowBelow_insertAfterAux (l : List Nat) (h a : Nat) (ha : a ∈ l) :
    windowBelow (insertAfterAux l h a) a = h := by
  induction l with
  | nil => cases ha
  | cons x xs ih =>
    by_cases hx : x = a
    · subst hx
      simp [insertAfterAux, windowBelow]
    · rcases List.mem_cons.mp ha with h1 | h1
      · exact absurd h1.symm hx
      · simp [insertAfterAux, hx, windowBelow, ih h1]

theorem windowBelow_insertAfter (z : List Nat) (h a : Nat)
    (haz : a ∈ z) (hne : a ≠ h) :
    windowBelow (insertAfter z h a) a = h := by
  apply windowBelow_insertAfterAux
  simp [List.mem_filter, haz, hne]

/-! ## Projection lemmas for the primitive OS operations -/

@[simp] theorem emit_os (e : Effect) (s : Sys) : (emit e s).os = s.os := rfl

@[simp] theorem emit_fx (e : Effect) (s : Sys) :
    (emit e s).fx = s.fx ++ [e] := rfl

@[simp] theorem emit_titles (e : Effect) (s : Sys) :
    (emit e s).WINDOW_TITLES = s.WINDOW_TITLES := rfl

@[simp] theorem emit_black_hwnd (e : Effect) (s : Sys) :
    (emit e s).black_window_hwnd = s.black_window_hwnd := rfl

@[simp] theorem emit_active (e : Effect) (s : Sys) :
    (emit e s).black_bars_active = s.black_bars_active := rfl

@[simp] theorem emit_shutting (e : Effect) (s : Sys) :
    (emit e s).shutting_down = s.shutting_down := rfl

@[simp] theorem emit_hooks (e : Effect) (s : Sys) :
    (emit e s).hook_handles = s.hook_handles := rfl

@[simp] theorem showWindowOp_zorder (s : Sys) (h : Nat) (v : Bool) :
    (showWindowOp s h v).os.zorder = s.os.zorder := rfl

@[simp] theorem showWindowOp_winText (s : Sys) (h : Nat) (v : Bool) :
    (showWindowOp s h v).os.winText = s.os.winText := rfl

@[simp] theorem showWindowOp_iconic (s : Sys) (h : Nat) (v : Bool) :
    (showWindowOp s h v).os.iconic = s.os.iconic := rfl

@[simp] theorem showWindowOp_monitorInfo (s : Sys) (h : Nat) (v : Bool) :
    (showWindowOp s h v).os.monitorInfo = s.os.monitorInfo := rfl

@[simp] theorem showWindowOp_foreground (s : Sys) (h : Nat) (v : Bool) :
    (showWindowOp s h v).os.foreground = s.os.foreground := rfl

@[simp] theorem showWindowOp_taskbar (s : Sys) (h : Nat) (v : Bool) :
    (showWindowOp s h v).os.taskbar = s.os.taskbar := rfl

@[simp] theorem showWindowOp_startButton (s : Sys) (h : Nat) (v : Bool) :
    (showWindowOp s h v).os.startButton = s.os.startButton := rfl

@[simp] theorem showWindowOp_nextHwnd (s : Sys) (h : Nat) (v : Bool) :
    (showWindowOp s h v).os.nextHwnd = s.os.nextHwnd := rfl

@[simp] theorem showWindowOp_titles (s : Sys) (h : Nat) (v : Bool) :
    (showWindowOp s h v).WINDOW_TITLES = s.WINDOW_TITLES := rfl

@[simp] theorem showWindowOp_black_hwnd (s : Sys) (h : Nat) (v : Bool) :
    (showWindowOp s h v).black_window_hwnd = s.black_window_hwnd := rfl

@[simp] theorem showWindowOp_active (s : Sys) (h : Nat) (v : Bool) :
    (showWindowOp s h v).black_bars_active = s.black_bars_active := rfl

@[simp] theorem showWindowOp_shutting (s : Sys) (h : Nat) (v : Bool) :
    (showWindowOp s h v).shutting_down = s.shutting_down := rfl

@[simp] theorem showWindowOp_hooks (s : Sys) (h : Nat) (v : Bool) :
    (showWindowOp s h v).hook_handles = s.hook_handles := rfl

@[simp] theorem showWindowOp_fx (s : Sys) (h : Nat) (v : Bool) :
    (showWindowOp s h v).fx = s.fx ++ [.showWin h v] := rfl

@[simp] theorem showWindowOp_visible (s : Sys) (h : Nat) (v : Bool) :
    (showWindowOp s h v).os.visible
      = fun x => if x = h then v else s.os.visible x := rfl

@[simp] theorem show_black_window_zorder (s : Sys) (h m : Nat) :
    (show_black_window s h m).os.zorder = insertAfter s.os.zorder h m := rfl

@[simp] theorem show_black_window_winText (s : Sys) (h m : Nat) :
    (show_black_window s h m).os.winText = s.os.winText := rfl

@[simp] theorem show_black_window_iconic (s : Sys) (h m : Nat) :
    (show_black_window s h m).os.iconic = s.os.iconic := rfl

@[simp] theorem show_black_window_monitorInfo (s : Sys) (h m : Nat) :
    (show_black_window s h m).os.monitorInfo = s.os.monitorInfo := rfl

@[simp] theorem show_black_window_foreground (s : Sys) (h m : Nat) :
    (show_black_window s h m).os.foreground = s.os.foreground := rfl

@[simp] theorem show_black_window_taskbar (s : Sys) (h m : Nat) :
    (show_black_window s h m).os.taskbar = s.os.taskbar := rfl

@[simp] theorem show_black_window_startButton (s : Sys) (h m : Nat) :
    (show_black_window s h m).os.startButton = s.os.startButton := rfl

@[simp] theorem show_black_window_nextHwnd (s : Sys) (h m : Nat) :
    (show_black_window s h m).os.nextHwnd = s.os.nextHwnd := rfl

@[simp] theorem show_black_window_titles (s : Sys) (h m : Nat) :
    (show_black_window s h m).WINDOW_TITLES = s.WINDOW_TITLES := rfl

@[simp] theorem show_black_window_black_hwnd (s : Sys) (h m : Nat) :
    (show_black_window s h m).black_window_hwnd = s.black_window_hwnd := rfl

@[simp] theorem show_black_window_active (s : Sys) (h m : Nat) :
    (show_black_window s h m).black_bars_active = s.black_bars_active := rfl

@[simp] theorem show_black_window_shutting (s : Sys) (h m : Nat) :
    (show_black_window s h m).shutting_down = s.shutting_down := rfl

@[simp] theorem show_black_window_hooks (s : Sys) (h m : Nat) :
    (show_black_window s h m).hook_handles = s.hook_handles := rfl

@[simp] theorem show_black_window_fx (s : Sys) (h m : Nat) :
    (show_black_window s h m).fx = s.fx ++ [.setPos h m true] := rfl

@[simp] theorem create_fst_zorder (s : Sys) (r : MonitorRect) :
    (create_black_window s r).1.os.zorder = s.os.nextHwnd :: s.os.zorder := rfl

@[simp] theorem create_fst_winText (s : Sys) (r : MonitorRect) :
    (create_black_window s r).1.os.winText = s.os.winText := rfl

@[simp] theorem create_fst_iconic (s : Sys) (r : MonitorRect) :
    (create_black_window s r).1.os.iconic = s.os.iconic := rfl

@[simp] theorem create_fst_monitorInfo (s : Sys) (r : MonitorRect) :
    (create_black_window s r).1.os.monitorInfo = s.os.monitorInfo := rfl

@[simp] theorem create_fst_foreground (s : Sys) (r : MonitorRect) :
    (create_black_window s r).1.os.foreground = s.os.foreground := rfl

@[simp] theorem create_fst_taskbar (s : Sys) (r : MonitorRect) :
    (create_black_window s r).1.os.taskbar = s.os.taskbar := rfl

@[simp] theorem create_fst_startButton (s : Sys) (r : MonitorRect) :
    (create_black_window s r).1.os.startButton = s.os.startButton := rfl

@[simp] theorem create_fst_nextHwnd (s : Sys) (r : MonitorRect) :
    (create_black_window s r).1.os.nextHwnd = s.os.nextHwnd + 1 := rfl

@[simp] theorem create_fst_titles (s : Sys) (r : MonitorRect) :
    (create_black_window s r).1.WINDOW_TITLES = s.WINDOW_TITLES := rfl

@[simp] theorem create_fst_black_hwnd (s : Sys) (r : MonitorRect) :
    (create_black_window s r).1.black_window_hwnd = s.black_window_hwnd := rfl

@[simp] theorem create_fst_active (s : Sys) (r : MonitorRect) :
    (create_black_window s r).1.black_bars_active = s.black_bars_active := rfl

@[simp] theorem create_fst_shutting (s : Sys) (r : MonitorRect) :
    (create_black_window s r).1.shutting_down = s.shutting_down := rfl

@[simp] theorem create_fst_hooks (s : Sys) (r : MonitorRect) :
    (create_black_window s r).1.hook_handles = s.hook_handles := rfl

@[simp] theorem create_fst_fx (s : Sys) (r : MonitorRect) :
    (create_black_window s r).1.fx
      = s.fx ++ [.create s.os.nextHwnd r.1 r.2.1 (r.2.2.1 - r.1) (r.2.2.2 - r.2.1)] := rfl

@[simp] theorem create_snd (s : Sys) (r : MonitorRect) :
    (create_black_window s r).2 = s.os.nextHwnd := rfl

@[simp] theorem destroy_zorder (s : Sys) (h : Nat) :
    (destroy_black_window s h).os.zorder
      = s.os.zorder.filter (fun x => x ≠ h) := rfl

@[simp] theorem destroy_taskbar (s : Sys) (h : Nat) :
    (destroy_black_window s h).os.taskbar = s.os.taskbar := rfl

@[simp] theorem destroy_startButton (s : Sys) (h : Nat) :
    (destroy_black_window s h).os.startButton = s.os.startButton := rfl

@[simp] theorem destroy_visible (s : Sys) (h : Nat) :
    (destroy_black_window s h).os.visible
      = fun x => if x = h then false else s.os.visible x := rfl

@[simp] theorem destroy_black_hwnd (s : Sys) (h : Nat) :
    (destroy_black_window s h).black_window_hwnd = s.black_window_hwnd := rfl

@[simp] theorem destroy_hooks (s : Sys) (h : Nat) :
    (destroy_black_window s h).hook_handles = s.hook_handles := rfl

@[simp] theorem destroy_fx (s : Sys) (h : Nat) :
    (destroy_black_window s h).fx = s.fx ++ [.destroy h] := rfl

/-! ## Preservation lemmas for the taskbar operations -/

@[simp] theorem hide_taskbar_zorder (s : Sys) :
    (hide_taskbar s).os.zorder = s.os.zorder := by
  rcases htb : s.os.taskbar with _ | t <;>
    rcases hsb : s.os.startButton with _ | b <;>
      simp [hide_taskbar, find_taskbar, find_start_button, htb, hsb]

@[simp] theorem hide_taskbar_winText (s : Sys) :
    (hide_taskbar s).os.winText = s.os.winText := by
  rcases htb : s.os.taskbar with _ | t <;>
    rcases hsb : s.os.startButton with _ | b <;>
      simp [hide_taskbar, find_taskbar, find_start_button, htb, hsb]

@[simp] theorem hide_taskbar_iconic (s : Sys) :
    (hide_taskbar s).os.iconic = s.os.iconic := by
  rcases htb : s.os.taskbar with _ | t <;>
    rcases hsb : s.os.startButton with _ | b <;>
      simp [hide_taskbar, find_taskbar, find_start_button, htb, hsb]

@[simp] theorem hide_taskbar_monitorInfo (s : Sys) :
    (hide_taskbar s).os.monitorInfo = s.os.monitorInfo := by
  rcases htb : s.os.taskbar with _ | t <;>
    rcases hsb : s.os.startButton with _ | b <;>
      simp [hide_taskbar, find_taskbar, find_start_button, htb, hsb]

@[simp] theorem hide_taskbar_foreground (s : Sys) :
    (hide_taskbar s).os.foreground = s.os.foreground := by
  rcases htb : s.os.taskbar with _ | t <;>
    rcases hsb : s.os.startButton with _ | b <;>
      simp [hide_taskbar, find_taskbar, find_start_button, htb, hsb]

@[simp] theorem hide_taskbar_nextHwnd (s : Sys) :
    (hide_taskbar s).os.nextHwnd = s.os.nextHwnd := by
  rcases htb : s.os.taskbar with _ | t <;>
    rcases hsb : s.os.startButton with _ | b <;>
      simp [hide_taskbar, find_taskbar, find_start_button, htb, hsb]

@[simp] theorem hide_taskbar_titles (s : Sys) :
    (hide_taskbar s).WINDOW_TITLES = s.WINDOW_TITLES := by
  rcases htb : s.os.taskbar with _ | t <;>
    rcases hsb : s.os.startButton with _ | b <;>
      simp [hide_taskbar, find_taskbar, find_start_button, htb, hsb]

@[simp] theorem hide_taskbar_black_hwnd (s : Sys) :
    (hide_taskbar s).black_window_hwnd = s.black_window_hwnd := by
  rcases htb : s.os.taskbar with _ | t <;>
    rcases hsb : s.os.startButton with _ | b <;>
      simp [hide_taskbar, find_taskbar, find_start_button, htb, hsb]

@[simp] theorem hide_taskbar_active (s : Sys) :
    (hide_taskbar s).black_bars_active = s.black_bars_active := by
  rcases htb : s.os.taskbar with _ | t <;>
    rcases hsb : s.os.startButton with _ | b <;>
      simp [hide_taskbar, find_taskbar, find_start_button, htb, hsb]

@[simp] theorem hide_taskbar_shutting (s : Sys) :
    (hide_taskbar s).shutting_down = s.shutting_down := by
  rcases htb : s.os.taskbar with _ | t <;>
    rcases hsb : s.os.startButton with _ | b <;>
      simp [hide_taskbar, find_taskbar, find_start_button, htb, hsb]

@[simp] theorem hide_taskbar_hooks (s : Sys) :
    (hide_taskbar s).hook_handles = s.hook_handles := by
  rcases htb : s.os.taskbar with _ | t <;>
    rcases hsb : s.os.startButton with _ | b <;>
      simp [hide_taskbar, find_taskbar, find_start_button, htb, hsb]

@[simp] theorem show_taskbar_zorder (s : Sys) :
    (show_taskbar s).os.zorder = s.os.zorder := by
  rcases htb : s.os.taskbar with _ | t <;>
    rcases hsb : s.os.startButton with _ | b <;>
      simp [show_taskbar, find_taskbar, find_start_button, htb, hsb]

@[simp] theorem show_taskbar_winText (s : Sys) :
    (show_taskbar s).os.winText = s.os.winText := by
  rcases htb : s.os.taskbar with _ | t <;>
    rcases hsb : s.os.startButton with _ | b <;>
      simp [show_taskbar, find_taskbar, find_start_button, htb, hsb]

@[simp] theorem show_taskbar_iconic (s : Sys) :
    (show_taskbar s).os.iconic = s.os.iconic := by
  rcases htb : s.os.taskbar with _ | t <;>
    rcases hsb : s.os.startButton with _ | b <;>
      simp [show_taskbar, find_taskbar, find_start_button, htb, hsb]

@[simp] theorem show_taskbar_monitorInfo (s : Sys) :
    (show_taskbar s).os.monitorInfo = s.os.monitorInfo := by
  rcases htb : s.os.taskbar with _ | t <;>
    rcases hsb : s.os.startButton with _ | b <;>
      simp [show_taskbar, find_taskbar, find_start_button, htb, hsb]

@[simp] theorem show_taskbar_foreground (s : Sys) :
    (show_taskbar s).os.foreground = s.os.foreground := by
  rcases htb : s.os.taskbar with _ | t <;>
    rcases hsb : s.os.startButton with _ | b <;>
      simp [show_taskbar, find_taskbar, find_start_button, htb, hsb]

@[simp] theorem show_taskbar_titles (s : Sys) :
    (show_taskbar s).WINDOW_TITLES = s.WINDOW_TITLES := by
  rcases htb : s.os.taskbar with _ | t <;>
    rcases hsb : s.os.startButton with _ | b <;>
      simp [show_taskbar, find_taskbar, find_start_button, htb, hsb]

@[simp] theorem show_taskbar_black_hwnd (s : Sys) :
    (show_taskbar s).black_window_hwnd = s.black_window_hwnd := by
  rcases htb : s.os.taskbar with _ | t <;>
    rcases hsb : s.os.startButton with _ | b <;>
      simp [show_taskbar, find_taskbar, find_start_button, htb, hsb]

@[simp] theorem show_taskbar_active (s : Sys) :
    (show_taskbar s).black_bars_active = s.black_bars_active := by
  rcases htb : s.os.taskbar with _ | t <;>
    rcases hsb : s.os.startButton with _ | b <;>
      simp [show_taskbar, find_taskbar, find_start_button, htb, hsb]

@[simp] theorem show_taskbar_shutting (s : Sys) :
    (show_taskbar s).shutting_down = s.shutting_down := by
  rcases htb : s.os.taskbar with _ | t <;>
    rcases hsb : s.os.startButton with _ | b <;>
      simp [show_taskbar, find_taskbar, find_start_button, htb, hsb]

@[simp] theorem show_taskbar_hooks (s : Sys) :
    (show_taskbar s).hook_handles = s.hook_handles := by
  rcases htb : s.os.taskbar with _ | t <;>
    rcases hsb : s.os.startButton with _ | b <;>
      simp [show_taskbar, find_taskbar, find_start_button, htb, hsb]

/-! ## Query stability under the state-management operations -/

@[simp] theorem is_monitored_showWindowOp (s : Sys) (h v w) :
    is_monitored_window (showWindowOp s h v) w = is_monitored_window s w := by
  simp [is_monitored_window, get_window_title]

theorem activate_winText (s : Sys) (m : Nat) :
    (activate_black_bars s m).os.winText = s.os.winText := by
  rcases hr : get_monitor_rect s m with _ | r <;>
    rcases hb : s.black_window_hwnd with _ | h <;>
      simp [activate_black_bars, hr, hb]

theorem activate_iconic (s : Sys) (m : Nat) :
    (activate_black_bars s m).os.iconic = s.os.iconic := by
  rcases hr : get_monitor_rect s m with _ | r <;>
    rcases hb : s.black_window_hwnd with _ | h <;>
      simp [activate_black_bars, hr, hb]

theorem activate_foreground (s : Sys) (m : Nat) :
    (activate_black_bars s m).os.foreground = s.os.foreground := by
  rcases hr : get_monitor_rect s m with _ | r <;>
    rcases hb : s.black_window_hwnd with _ | h <;>
      simp [activate_black_bars, hr, hb]

theorem activate_titles (s : Sys) (m : Nat) :
    (activate_black_bars s m).WINDOW_TITLES = s.WINDOW_TITLES := by
  rcases hr : get_monitor_rect s m with _ | r <;>
    rcases hb : s.black_window_hwnd with _ | h <;>
      simp [activate_black_bars, hr, hb]

@[simp] theorem is_monitored_activate (s : Sys) (m w : Nat) :
    is_monitored_window (activate_black_bars s m) w
      = is_monitored_window s w := by
  simp [is_monitored_window, get_window_title, activate_winText,
    activate_titles]

@[simp] theorem is_minimized_activate (s : Sys) (m w : Nat) :
    is_window_minimized (activate_black_bars s m) w
      = is_window_minimized s w := by
  simp [is_window_minimized, activate_iconic]

theorem deactivate_winText (s : Sys) :
    (deactivate_black_bars s).os.winText = s.os.winText := by
  rcases hb : s.black_window_hwnd with _ | h <;>
    simp [deactivate_black_bars, hb, hide_black_window] <;>
      split <;> simp

theorem deactivate_iconic (s : Sys) :
    (deactivate_black_bars s).os.iconic = s.os.iconic := by
  rcases hb : s.black_window_hwnd with _ | h <;>
    simp [deactivate_black_bars, hb, hide_black_window] <;>
      split <;> simp

theorem deactivate_foreground (s : Sys) :
    (deactivate_black_bars s).os.foreground = s.os.foreground := by
  rcases hb : s.black_window_hwnd with _ | h <;>
    simp [deactivate_black_bars, hb, hide_black_window] <;>
      split <;> simp

theorem deactivate_titles (s : Sys) :
    (deactivate_black_bars s).WINDOW_TITLES = s.WINDOW_TITLES := by
  rcases hb : s.black_window_hwnd with _ | h <;>
    simp [deactivate_black_bars, hb, hide_black_window] <;>
      split <;> simp

@[simp] theorem deactivate_active (s : Sys) :
    (deactivate_black_bars s).black_bars_active = false := rfl

@[simp] theorem is_monitored_deactivate (s : Sys) (w : Nat) :
    is_monitored_window (deactivate_black_bars s) w
      = is_monitored_window s w := by
  simp [is_monitored_window, get_window_title, deactivate_winText,
    deactivate_titles]

@[simp] theorem is_minimized_deactivate (s : Sys) (w : Nat) :
    is_window_minimized (deactivate_black_bars s) w
      = is_window_minimized s w := by
  simp [is_window_minimized, deactivate_iconic]

theorem ensure_winText (s : Sys) (m : Nat) :
    (ensure_black_window_z_order s m).os.winText = s.os.winText := by
  rcases hb : s.black_window_hwnd with _ | bw <;>
    simp [ensure_black_window_z_order, hb] <;>
      (try split) <;> simp [hb]

theorem ensure_iconic (s : Sys) (m : Nat) :
    (ensure_black_window_z_order s m).os.iconic = s.os.iconic := by
  rcases hb : s.black_window_hwnd with _ | bw <;>
    simp [ensure_black_window_z_order, hb] <;>
      (try split) <;> simp [hb]

theorem ensure_foreground (s : Sys) (m : Nat) :
    (ensure_black_window_z_order s m).os.foreground = s.os.foreground := by
  rcases hb : s.black_window_hwnd with _ | bw <;>
    simp [ensure_black_window_z_order, hb] <;>
      (try split) <;> simp [hb]

theorem ensure_titles (s : Sys) (m : Nat) :
    (ensure_black_window_z_order s m).WINDOW_TITLES = s.WINDOW_TITLES := by
  rcases hb : s.black_window_hwnd with _ | bw <;>
    simp [ensure_black_window_z_order, hb] <;>
      (try split) <;> simp [hb]

@[simp] theorem ensure_active (s : Sys) (m : Nat) :
    (ensure_black_window_z_order s m).black_bars_active
      = s.black_bars_active := by
  rcases hb : s.black_window_hwnd with _ | bw <;>
    simp [ensure_black_window_z_order, hb] <;>
      (try split) <;> simp [hb]

@[simp] theorem ensure_black_hwnd (s : Sys) (m : Nat) :
    (ensure_black_window_z_order s m).black_window_hwnd
      = s.black_window_hwnd := by
  rcases hb : s.black_window_hwnd with _ | bw <;>
    simp [ensure_black_window_z_order, hb] <;>
      (try split) <;> simp [hb]

@[simp] theorem is_monitored_ensure (s : Sys) (m w : Nat) :
    is_monitored_window (ensure_black_window_z_order s m) w
      = is_monitored_window s w := by
  simp [is_monitored_window, get_window_title, ensure_winText, ensure_titles]

@[simp] theorem is_minimized_ensure (s : Sys) (m w : Nat) :
    is_window_minimized (ensure_black_window_z_order s m) w
      = is_window_minimized s w := by
  simp [is_window_minimized, ensure_iconic]

/-! ## Foreground stability -/

theorem get_foreground_activate (s : Sys) (m : Nat) :
    get_foreground_window (activate_black_bars s m)
      = get_foreground_window s := by
  simp [get_foreground_window, activate_foreground]

theorem get_foreground_deactivate (s : Sys) :
    get_foreground_window (deactivate_black_bars s)
      = get_foreground_window s := by
  simp [get_foreground_window, deactivate_foreground]

theorem get_foreground_ensure (s : Sys) (m : Nat) :
    get_foreground_window (ensure_black_window_z_order s m)
      = get_foreground_window s := by
  simp [get_foreground_window, ensure_foreground]

/-! ## Branch lemmas for `check_and_update_state` -/

theorem check_noop (s : Sys)
    (hc : (is_monitored_window s (get_foreground_window s) &&
        !is_window_minimized s (get_foreground_window s)) = false)
    (ha : s.black_bars_active = false) :
    check_and_update_state s = s := by
  simp [check_and_update_state, hc, ha]

theorem check_deactivates (s : Sys)
    (hc : (is_monitored_window s (get_foreground_window s) &&
        !is_window_minimized s (get_foreground_window s)) = false)
    (ha : s.black_bars_active = true) :
    check_and_update_state s = deactivate_black_bars s := by
  simp [check_and_update_state, hc, ha]

theorem check_activates (s : Sys)
    (hc : (is_monitored_window s (get_foreground_window s) &&
        !is_window_minimized s (get_foreground_window s)) = true)
    (ha : s.black_bars_active = false) :
    check_and_update_state s
      = activate_black_bars s (get_foreground_window s) := by
  simp [check_and_update_state, hc, ha]

theorem check_ensures (s : Sys)
    (hc : (is_monitored_window s (get_foreground_window s) &&
        !is_window_minimized s (get_foreground_window s)) = true)
    (ha : s.black_bars_active = true) :
    check_and_update_state s
      = ensure_black_window_z_order s (get_foreground_window s) := by
  simp [check_and_update_state, hc, ha]

/-! ## Branch lemmas for the activation / z-order routines -/

theorem activate_none_rect (s : Sys) (m : Nat)
    (hr : get_monitor_rect s m = none) :
    activate_black_bars s m = s := by
  unfold activate_black_bars
  rw [hr]

theorem activate_post_none (s : Sys) (m : Nat) (r : MonitorRect)
    (hr : get_monitor_rect s m = some r)
    (hb : s.black_window_hwnd = none) :
    (activate_black_bars s m).black_bars_active = true ∧
    (activate_black_bars s m).black_window_hwnd = some s.os.nextHwnd ∧
    (activate_black_bars s m).os.zorder
      = insertAfter (s.os.nextHwnd :: s.os.zorder) s.os.nextHwnd m := by
  unfold activate_black_bars
  rw [hr, hb]
  simp

theorem activate_post_some (s : Sys) (m b : Nat) (r : MonitorRect)
    (hr : get_monitor_rect s m = some r)
    (hb : s.black_window_hwnd = some b) :
    (activate_black_bars s m).black_bars_active = true ∧
    (activate_black_bars s m).black_window_hwnd = some b ∧
    (activate_black_bars s m).os.zorder = insertAfter s.os.zorder b m := by
  unfold activate_black_bars
  rw [hr, hb]
  simp [hb]

theorem ensure_none (s : Sys) (m : Nat)
    (hb : s.black_window_hwnd = none) :
    ensure_black_window_z_order s m = s := by
  unfold ensure_black_window_z_order
  rw [hb]

theorem ensure_nodrift (s : Sys) (m b : Nat)
    (hb : s.black_window_hwnd = some b)
    (hd : windowBelow s.os.zorder m = b) :
    ensure_black_window_z_order s m = s := by
  unfold ensure_black_window_z_order
  rw [hb]
  simp [hd]

theorem ensure_drift (s : Sys) (m b : Nat)
    (hb : s.black_window_hwnd = some b)
    (hd : windowBelow s.os.zorder m ≠ b) :
    (ensure_black_window_z_order s m).os.zorder
      = insertAfter s.os.zorder b m ∧
    (ensure_black_window_z_order s m).fx
      = s.fx ++ [.setPos b m false] := by
  unfold ensure_black_window_z_order
  rw [hb]
  simp [hd]

/-! ## Counting backdrop-creation calls in the effect log -/

/-- Is an effect a `CreateWindowEx` call for the backdrop? -/
def isCreate : Effect → Bool
  | .create _ _ _ _ _ => true
  | _ => false

/-- Number of `CreateWindowEx` calls recorded in an effect log. -/
def countCreates (l : List Effect) : Nat := (l.filter isCreate).length

theorem countCreates_append (a b : List Effect) :
    countCreates (a ++ b) = countCreates a + countCreates b := by
  simp [countCreates, List.filter_append]

@[simp] theorem countCreates_showWindowOp (s : Sys) (h : Nat) (v : Bool) :
    countCreates (showWindowOp s h v).fx = countCreates s.fx := by
  simp [countCreates, List.filter_append, isCreate]

theorem countCreates_hide_taskbar (s : Sys) :
    countCreates (hide_taskbar s).fx = countCreates s.fx := by
  rcases htb : s.os.taskbar with _ | t <;>
    rcases hsb : s.os.startButton with _ | b <;>
      simp [hide_taskbar, find_taskbar, find_start_button, htb, hsb,
        countCreates, List.filter_append, isCreate]

theorem countCreates_activate_some (s : Sys) (m b : Nat)
    (hb : s.black_window_hwnd = some b) :
    countCreates (activate_black_bars s m).fx = countCreates s.fx := by
  rcases hr : get_monitor_rect s m with _ | r
  · rw [activate_none_rect s m hr]
  · unfold activate_black_bars
    rw [hr, hb]
    simp only []
    rw [countCreates_hide_taskbar]
    simp [countCreates, List.filter_append, isCreate]

theorem countCreates_activate_none (s : Sys) (m : Nat) (r : MonitorRect)
    (hr : get_monitor_rect s m = some r)
    (hb : s.black_window_hwnd = none) :
    countCreates (activate_black_bars s m).fx = countCreates s.fx + 1 := by
  unfold activate_black_bars
  rw [hr, hb]
  simp only []
  rw [countCreates_hide_taskbar]
  simp [countCreates, List.filter_append, isCreate]

/-! ## Effect-log shape of hook uninstall and taskbar restore -/

theorem uninstall_cons (s : Sys) (h : Nat) (t : List Nat) :
    uninstall_event_hooks s (h :: t)
      = uninstall_event_hooks (emit (.unhook h) s) t := rfl

theorem uninstall_fx (l : List Nat) (s : Sys) :
    (uninstall_event_hooks s l).fx = s.fx ++ l.map Effect.unhook := by
  induction l generalizing s with
  | nil => simp [uninstall_event_hooks]
  | cons h t ih =>
    rw [uninstall_cons, ih]
    simp

theorem uninstall_os (l : List Nat) (s : Sys) :
    (uninstall_event_hooks s l).os = s.os := by
  induction l generalizing s with
  | nil => simp [uninstall_event_hooks]
  | cons h t ih =>
    rw [uninstall_cons, ih]
    rfl

theorem uninstall_black_hwnd (l : List Nat) (s : Sys) :
    (uninstall_event_hooks s l).black_window_hwnd = s.black_window_hwnd := by
  induction l generalizing s with
  | nil => simp [uninstall_event_hooks]
  | cons h t ih =>
    rw [uninstall_cons, ih]
    rfl

theorem show_taskbar_visible_taskbar (s : Sys) (t : Nat)
    (ht : s.os.taskbar = some t) :
    (show_taskbar s).os.visible t = true := by
  rcases hsb : s.os.startButton with _ | b <;>
    simp [show_taskbar, find_taskbar, find_start_button, ht, hsb]

theorem show_taskbar_fx (s : Sys) :
    ∃ l, (show_taskbar s).fx = s.fx ++ l ∧
      ∀ e ∈ l, ∃ w, e = Effect.showWin w true := by
  rcases htb : s.os.taskbar with _ | t
  · refine ⟨[], ?_, by simp⟩
    simp [show_taskbar, find_taskbar, find_start_button, htb]
  · rcases hsb : s.os.startButton with _ | b
    · refine ⟨[.showWin t true], ?_, by simp⟩
      simp [show_taskbar, find_taskbar, find_start_button, htb, hsb]
    · refine ⟨[.showWin t true, .showWin b true], ?_, by simp⟩
      simp [show_taskbar, find_taskbar, find_start_button, htb, hsb]

/-! ## Concrete system states used to instantiate the theorems -/

/-- A state where the foreground window (handle 5) carries a monitored
title and is not minimized, but monitor-info resolution fails for every
window.  Title and minimized queries fail for every other handle. -/
def sysNoRect : Sys :=
  { os :=
      { foreground := 5
        winText := fun h => if h = 5 then some "League of Legends" else none
        iconic := fun h => if h = 5 then some false else none
        monitorInfo := fun _ => none
        zorder := [5, 7]
        visible := fun _ => true
        taskbar := some 7
        startButton := none
        nextHwnd := 100 }
    WINDOW_TITLES := ["League of Legends (TM) Client", "League of Legends"]
    black_window_hwnd := none
    black_bars_active := false
    shutting_down := false
    hook_handles := [11]
    tray_icon := true
    fx := [] }

/-- A state ready to activate: monitored, unminimized foreground window
(handle 5) whose monitor rect resolves; no backdrop yet; overlay inactive. -/
def sysReady : Sys :=
  { os :=
      { foreground := 5
        winText := fun h => if h = 5 then some "League of Legends" else none
        iconic := fun _ => some false
        monitorInfo := fun h => if h = 5 then some (0, 0, 1920, 1080) else none
        zorder := [5, 7]
        visible := fun _ => true
        taskbar := some 7
        startButton := none
        nextHwnd := 100 }
    WINDOW_TITLES := ["League of Legends (TM) Client", "League of Legends"]
    black_window_hwnd := none
    black_bars_active := false
    shutting_down := false
    hook_handles := [11]
    tray_icon := true
    fx := [] }

/-- An active state whose backdrop (handle 90) has drifted: window 6 sits
directly below the monitored foreground window 5 in the z-order. -/
def sysActiveDrift : Sys :=
  { os :=
      { foreground := 5
        winText := fun h => if h = 5 then some "League of Legends" else none
        iconic := fun _ => some false
        monitorInfo := fun h => if h = 5 then some (0, 0, 1920, 1080) else none
        zorder := [5, 6, 90, 7]
        visible := fun _ => true
        taskbar := some 7
        startButton := none
        nextHwnd := 100 }
    WINDOW_TITLES := ["League of Legends (TM) Client", "League of Legends"]
    black_window_hwnd := some 90
    black_bars_active := true
    shutting_down := false
    hook_handles := [11]
    tray_icon := true
    fx := [] }

/-- A state in which shutdown has begun: `shutting_down` is set, a backdrop
exists (handle 90), and monitor-info resolution fails. -/
def sysShut : Sys :=
  { os :=
      { foreground := 5
        winText := fun h => if h = 5 then some "League of Legends" else none
        iconic := fun h => if h = 5 then some false else none
        monitorInfo := fun _ => none
        zorder := [5, 90, 7]
        visible := fun h => h ≠ 7
        taskbar := some 7
        startButton := some 8
        nextHwnd := 100 }
    WINDOW_TITLES := ["League of Legends (TM) Client", "League of Legends"]
    black_window_hwnd := some 90
    black_bars_active := true
    shutting_down := true
    hook_handles := [11, 12]
    tray_icon := true
    fx := [] }

/-! ## Claims -/

/-- Claim C7: once the shutdown flag is set to true, every subsequently
delivered window-manager event callback returns without performing any
OS-state mutation or state-machine update — the whole system state,
including the effect log, is returned unchanged. -/
theorem c7_shutdown_discards_events (s : Sys) (hs : s.shutting_down = true)
    (hWinEventHook event hwnd idObject idChild idEventThread
      dwmsEventTime : Nat) :
    win_event_callback s hWinEventHook event hwnd idObject idChild
      idEventThread dwmsEventTime = s := by
  simp [win_event_callback, hs]

theorem c7_shutdown_discards_events_witness :
    win_event_callback sysShut 1 2 3 4 5 6 7 = sysShut :=
  c7_shutdown_discards_events sysShut rfl 1 2 3 4 5 6 7

/-- Claim C8: the event callback's behavior is independent of its
notification payload: two invocations with arbitrary (possibly different)
hook handles, event codes, window handles, object/child ids, thread ids and
timestamps, observing the same system state, produce identical results. -/
theorem c8_payload_independent (s : Sys)
    (a1 a2 a3 a4 a5 a6 a7 b1 b2 b3 b4 b5 b6 b7 : Nat) :
    win_event_callback s a1 a2 a3 a4 a5 a6 a7
      = win_event_callback s b1 b2 b3 b4 b5 b6 b7 := rfl

/-- Claim C9: the window-title query returns the empty string (and never
raises — it is a total function here) when the underlying `GetWindowText`
query fails, and the is-minimized query returns `false` when the underlying
`IsIconic` query fails. -/
theorem c9_query_failure_defaults (s : Sys) (hwnd : Nat) :
    (s.os.winText hwnd = none → get_window_title s hwnd = "") ∧
    (s.os.iconic hwnd = none → is_window_minimized s hwnd = false) := by
  constructor <;> intro hq <;>
    simp [get_window_title, is_window_minimized, hq]

theorem c9_query_failure_defaults_witness :
    get_window_title sysNoRect 6 = "" ∧
    is_window_minimized sysNoRect 6 = false :=
  ⟨(c9_query_failure_defaults sysNoRect 6).1 rfl,
   (c9_query_failure_defaults sysNoRect 6).2 rfl⟩

/-- Claim C10: `activate_black_bars` resolves the monitor rect before
checking whether a backdrop window already exists, so even a re-activation
for which a backdrop handle is already stored is blocked completely — the
state (including taskbar visibility, effect log and activation flag) is
returned unchanged — whenever the monitor-rect lookup fails. -/
theorem c10_rect_checked_before_backdrop (s : Sys) (m b : Nat)
    (hb : s.black_window_hwnd = some b)
    (hr : get_monitor_rect s m = none) :
    activate_black_bars s m = s := by
  unfold activate_black_bars
  rw [hr]

theorem c10_rect_checked_before_backdrop_witness :
    activate_black_bars sysShut 5 = sysShut :=
  c10_rect_checked_before_backdrop sysShut 5 90 rfl rfl

/-- Claim C4: when the overlay is inactive and the foreground window is a
monitored, unminimized target whose monitor-rect lookup fails, re-evaluation
is atomic and blocked: the whole state (no backdrop creation, no taskbar
change, activation flag still off, no logged call) is unchanged; and a later
re-evaluation in an otherwise-eligible state whose rect resolves activates. -/
theorem c4_activation_blocked_without_rect :
    (∀ s : Sys,
      is_monitored_window s (get_foreground_window s) = true →
      is_window_minimized s (get_foreground_window s) = false →
      s.black_bars_active = false →
      get_monitor_rect s (get_foreground_window s) = none →
      check_and_update_state s = s) ∧
    (∀ (s : Sys) (r : MonitorRect),
      is_monitored_window s (get_foreground_window s) = true →
      is_window_minimized s (get_foreground_window s) = false →
      s.black_bars_active = false →
      get_monitor_rect s (get_foreground_window s) = some r →
      (check_and_update_state s).black_bars_active = true) := by
  constructor
  · intro s hm hmin ha hr
    rw [check_activates s (by simp [hm, hmin]) ha, activate_none_rect _ _ hr]
  · intro s r hm hmin ha hr
    rw [check_activates s (by simp [hm, hmin]) ha]
    rcases hb : s.black_window_hwnd with _ | b
    · exact (activate_post_none s _ r hr hb).1
    · exact (activate_post_some s _ b r hr hb).1

theorem c4_activation_blocked_without_rect_witness :
    check_and_update_state sysNoRect = sysNoRect ∧
    (check_and_update_state sysReady).black_bars_active = true :=
  ⟨c4_activation_blocked_without_rect.1 sysNoRect rfl rfl rfl rfl,
   c4_activation_blocked_without_rect.2 sysReady (0, 0, 1920, 1080)
     rfl rfl rfl rfl⟩

/-- Claim C3: backdrop creation happens only when no backdrop handle is
stored: an activation with a stored handle keeps that very handle and logs
no additional `CreateWindowEx` call; and after a first activation from a
handle-free state, any second activation without an intervening destroy
reuses the first activation's handle and creates no new window. -/
theorem c3_at_most_one_backdrop :
    (∀ (s : Sys) (m b : Nat), s.black_window_hwnd = some b →
      (activate_black_bars s m).black_window_hwnd = some b ∧
      countCreates (activate_black_bars s m).fx = countCreates s.fx) ∧
    (∀ (s : Sys) (m m2 : Nat) (r : MonitorRect),
      s.black_window_hwnd = none →
      get_monitor_rect s m = some r →
      ∃ b, (activate_black_bars s m).black_window_hwnd = some b ∧
        (activate_black_bars (activate_black_bars s m) m2).black_window_hwnd
          = some b ∧
        countCreates (activate_black_bars (activate_black_bars s m) m2).fx
          = countCreates (activate_black_bars s m).fx) := by
  have part1 : ∀ (s : Sys) (m b : Nat), s.black_window_hwnd = some b →
      (activate_black_bars s m).black_window_hwnd = some b ∧
      countCreates (activate_black_bars s m).fx = countCreates s.fx := by
    intro s m b hb
    rcases hr : get_monitor_rect s m with _ | r
    · rw [activate_none_rect s m hr]
      exact ⟨hb, rfl⟩
    · exact ⟨(activate_post_some s m b r hr hb).2.1,
        countCreates_activate_some s m b hb⟩
  refine ⟨part1, ?_⟩
  intro s m m2 r hb hr
  refine ⟨s.os.nextHwnd, (activate_post_none s m r hr hb).2.1, ?_, ?_⟩
  · exact (part1 _ m2 _ (activate_post_none s m r hr hb).2.1).1
  · exact (part1 _ m2 _ (activate_post_none s m r hr hb).2.1).2

theorem c3_at_most_one_backdrop_witness :
    ((activate_black_bars sysActiveDrift 5).black_window_hwnd = some 90 ∧
      countCreates (activate_black_bars sysActiveDrift 5).fx
        = countCreates sysActiveDrift.fx) ∧
    ∃ b, (activate_black_bars sysReady 5).black_window_hwnd = some b ∧
      Sys.black_window_hwnd
          (activate_black_bars (activate_black_bars sysReady 5) 5) = some b ∧
      countCreates (activate_black_bars (activate_black_bars sysReady 5) 5).fx
        = countCreates (activate_black_bars sysReady 5).fx :=
  ⟨c3_at_most_one_backdrop.1 sysActiveDrift 5 90 rfl,
   c3_at_most_one_backdrop.2 sysReady 5 5 (0, 0, 1920, 1080) rfl rfl⟩

/-- Claim C5: while the overlay is active for the monitored, unminimized
foreground window and a backdrop handle exists, re-evaluation re-issues the
placement of the backdrop directly behind the target exactly when the window
immediately below the target is not the backdrop (logging one `SetWindowPos`
and restoring the backdrop to directly-below-target), and is a complete
no-op (no repositioning call at all) when the backdrop is already directly
below the target. -/
theorem c5_stacking_drift_correction (s : Sys) (bw : Nat)
    (ha : s.black_bars_active = true)
    (hm : is_monitored_window s (get_foreground_window s) = true)
    (hmin : is_window_minimized s (get_foreground_window s) = false)
    (hb : s.black_window_hwnd = some bw)
    (hmem : get_foreground_window s ∈ s.os.zorder)
    (hne : get_foreground_window s ≠ bw) :
    (windowBelow s.os.zorder (get_foreground_window s) ≠ bw →
      (check_and_update_state s).fx
        = s.fx ++ [.setPos bw (get_foreground_window s) false] ∧
      windowBelow (check_and_update_state s).os.zorder
        (get_foreground_window s) = bw) ∧
    (windowBelow s.os.zorder (get_foreground_window s) = bw →
      check_and_update_state s = s) := by
  have hce : check_and_update_state s
      = ensure_black_window_z_order s (get_foreground_window s) :=
    check_ensures s (by simp [hm, hmin]) ha
  constructor
  · intro hd
    rw [hce]
    refine ⟨(ensure_drift s _ bw hb hd).2, ?_⟩
    rw [(ensure_drift s _ bw hb hd).1]
    exact windowBelow_insertAfter _ _ _ hmem hne
  · intro hd
    rw [hce]
    exact ensure_nodrift s _ bw hb hd

theorem c5_stacking_drift_correction_witness :
    (check_and_update_state sysActiveDrift).fx
      = sysActiveDrift.fx ++ [.setPos 90 5 false] ∧
    windowBelow (check_and_update_state sysActiveDrift).os.zorder 5 = 90 := by
  have h := c5_stacking_drift_correction sysActiveDrift 90 rfl rfl rfl rfl
    (by decide) (by decide)
  exact h.1 (by decide)

/-- Claim C1 (counterexample): in `sysNoRect` the foreground window's title
is monitored and the window is not minimized, and re-evaluation has settled
(it returns the state unchanged, so no further OS-state change occurs), yet
the activation state is not Active — the claimed equivalence fails because
the monitor-rect lookup fails. -/
theorem c1_counterexample :
    is_monitored_window sysNoRect (get_foreground_window sysNoRect) = true ∧
    is_window_minimized sysNoRect (get_foreground_window sysNoRect) = false ∧
    check_and_update_state sysNoRect = sysNoRect ∧
    (check_and_update_state sysNoRect).black_bars_active = false := by
  have h : check_and_update_state sysNoRect = sysNoRect := by
    rw [check_activates sysNoRect (by decide) rfl,
      activate_none_rect sysNoRect (get_foreground_window sysNoRect) rfl]
  exact ⟨rfl, rfl, h, by rw [h]; rfl⟩

/-- Claim C1 (amended): after one run of the re-evaluation routine, the
activation state is Active iff the foreground window's title is in the
monitored set, the window is not minimized, and additionally either the
overlay was already active beforehand or the foreground window's
monitor-rect lookup succeeds. -/
theorem c1_active_iff_amended (s : Sys) :
    (check_and_update_state s).black_bars_active
      = (is_monitored_window s (get_foreground_window s) &&
         !is_window_minimized s (get_foreground_window s) &&
         (s.black_bars_active ||
           (get_monitor_rect s (get_foreground_window s)).isSome)) := by
  rcases hc : (is_monitored_window s (get_foreground_window s) &&
      !is_window_minimized s (get_foreground_window s)) with _ | _
  · rcases ha : s.black_bars_active with _ | _
    · rw [check_noop s hc ha]
      simp [ha]
    · rw [check_deactivates s hc ha]
      simp
  · rcases ha : s.black_bars_active with _ | _
    · rcases hr : get_monitor_rect s (get_foreground_window s) with _ | r
      · rw [check_activates s hc ha, activate_none_rect _ _ hr]
        simp [ha]
      · rcases hbh : s.black_window_hwnd with _ | b
        · rw [check_activates s hc ha, (activate_post_none s _ r hr hbh).1]
          simp
        · rw [check_activates s hc ha, (activate_post_some s _ b r hr hbh).1]
          simp
    · rw [check_ensures s hc ha]
      simp [ha]

/-- Claim C6: with a well-formed OS state (the foreground window is in the
z-order, all z-order handles are below the allocator's next handle, and a
stored backdrop handle never equals the foreground window), running the
re-evaluation routine a second time with no intervening OS-state change
returns the first run's state unchanged — in particular it appends no new
effect to the log: no window creation and no show/hide/reposition call. -/
theorem c6_reevaluate_idempotent (s : Sys)
    (hmem : get_foreground_window s ∈ s.os.zorder)
    (hlt : ∀ h ∈ s.os.zorder, h < s.os.nextHwnd)
    (hbw : ∀ b, s.black_window_hwnd = some b →
      b ≠ get_foreground_window s) :
    check_and_update_state (check_and_update_state s)
      = check_and_update_state s := by
  rcases hc : (is_monitored_window s (get_foreground_window s) &&
      !is_window_minimized s (get_foreground_window s)) with _ | _
  · rcases ha : s.black_bars_active with _ | _
    · rw [check_noop s hc ha, check_noop s hc ha]
    · rw [check_deactivates s hc ha]
      apply check_noop
      · rw [get_foreground_deactivate, is_monitored_deactivate,
          is_minimized_deactivate]
        exact hc
      · exact deactivate_active s
  · rcases ha : s.black_bars_active with _ | _
    · rw [check_activates s hc ha]
      rcases hr : get_monitor_rect s (get_foreground_window s) with _ | r
      · rw [activate_none_rect _ _ hr, check_activates s hc ha,
          activate_none_rect _ _ hr]
      · have hc1 : (is_monitored_window
              (activate_black_bars s (get_foreground_window s))
              (get_foreground_window
                (activate_black_bars s (get_foreground_window s))) &&
            !is_window_minimized
              (activate_black_bars s (get_foreground_window s))
              (get_foreground_window
                (activate_black_bars s (get_foreground_window s)))) = true := by
          rw [get_foreground_activate, is_monitored_activate,
            is_minimized_activate]
          exact hc
        rcases hbh : s.black_window_hwnd with _ | b
        · have hp := activate_post_none s (get_foreground_window s) r hr hbh
          rw [check_ensures _ hc1 hp.1]
          apply ensure_nodrift _ _ s.os.nextHwnd
          · exact hp.2.1
          · rw [get_foreground_activate, hp.2.2]
            exact windowBelow_insertAfter _ _ _
              (List.mem_cons_of_mem _ hmem)
              (Nat.ne_of_lt (hlt _ hmem))
        · have hp := activate_post_some s (get_foreground_window s) b r hr hbh
          rw [check_ensures _ hc1 hp.1]
          apply ensure_nodrift _ _ b
          · exact hp.2.1
          · rw [get_foreground_activate, hp.2.2]
            exact windowBelow_insertAfter _ _ _ hmem ((hbw b hbh).symm)
    · rw [check_ensures s hc ha]
      rcases hbh : s.black_window_hwnd with _ | bw
      · rw [ensure_none s _ hbh, check_ensures s hc ha, ensure_none s _ hbh]
      · by_cases hd : windowBelow s.os.zorder (get_foreground_window s) = bw
        · rw [ensure_nodrift s _ bw hbh hd, check_ensures s hc ha,
            ensure_nodrift s _ bw hbh hd]
        · have hc1 : (is_monitored_window
              (ensure_black_window_z_order s (get_foreground_window s))
              (get_foreground_window
                (ensure_black_window_z_order s (get_foreground_window s))) &&
            !is_window_minimized
              (ensure_black_window_z_order s (get_foreground_window s))
              (get_foreground_window
                (ensure_black_window_z_order s
                  (get_foreground_window s)))) = true := by
            rw [get_foreground_ensure, is_monitored_ensure,
              is_minimized_ensure]
            exact hc
          have ha1 : (ensure_black_window_z_order s
              (get_foreground_window s)).black_bars_active = true := by
            rw [ensure_active]
            exact ha
          rw [check_ensures _ hc1 ha1]
          apply ensure_nodrift _ _ bw
          · rw [ensure_black_hwnd]
            exact hbh
          · rw [get_foreground_ensure, (ensure_drift s _ bw hbh hd).1]
            exact windowBelow_insertAfter _ _ _ hmem ((hbw bw hbh).symm)

theorem c6_reevaluate_idempotent_witness :
    check_and_update_state (check_and_update_state sysReady)
      = check_and_update_state sysReady :=
  c6_reevaluate_idempotent sysReady (by decide) (by decide)
    (by intro b hbb; exact Option.noConfusion hbb)

/-- The state after the tray-icon and hook-uninstall steps of `cleanup`: hooks
unhooked in order and the stored list cleared (with an empty list both
branches of the source's `if` coincide, so this covers both). -/
def afterHooks (s : Sys) : Sys :=
  { (uninstall_event_hooks { s with tray_icon := false }
      s.hook_handles) with hook_handles := [] }

theorem afterHooks_os (s : Sys) : (afterHooks s).os = s.os :=
  uninstall_os _ _

theorem afterHooks_black (s : Sys) :
    (afterHooks s).black_window_hwnd = s.black_window_hwnd :=
  uninstall_black_hwnd _ _

theorem afterHooks_fx (s : Sys) :
    (afterHooks s).fx = s.fx ++ s.hook_handles.map Effect.unhook :=
  uninstall_fx _ _

theorem afterHooks_hooks (s : Sys) : (afterHooks s).hook_handles = [] := rfl

/-- Equation factoring `cleanup` through `afterHooks`. -/
theorem cleanup_eq (s : Sys) :
    cleanup s =
      match (show_taskbar (afterHooks s)).black_window_hwnd with
      | some h =>
        if h = 0 then show_taskbar (afterHooks s)
        else { (destroy_black_window (show_taskbar (afterHooks s)) h)
                with black_window_hwnd := none }
      | none => show_taskbar (afterHooks s) := by
  obtain ⟨os, wt, bh, ba, sd, hh, ti, fx⟩ := s
  by_cases he : hh.isEmpty
  · have h0 : hh = [] := by simpa using he
    subst h0
    rfl
  · unfold cleanup afterHooks
    dsimp only
    rw [if_neg he]

/-- Claim C2: whatever the overlay state, `cleanup` performs in order: hook
uninstalls, then taskbar (and Start button) restore, then backdrop destroy
when a (non-zero) backdrop handle is stored; afterwards the taskbar is
visible, no backdrop handle is stored, the backdrop window is out of the
z-order, and the hook list is empty.  The stored handle is assumed non-zero
and distinct from the taskbar handle (both hold for any handle really
returned by window creation). -/
theorem c2_cleanup_restores (s : Sys)
    (hb : ∀ h, s.black_window_hwnd = some h →
      h ≠ 0 ∧ s.os.taskbar ≠ some h) :
    (∀ t, s.os.taskbar = some t → (cleanup s).os.visible t = true) ∧
    (cleanup s).black_window_hwnd = none ∧
    (∀ h, s.black_window_hwnd = some h → h ∉ (cleanup s).os.zorder) ∧
    (cleanup s).hook_handles = [] ∧
    (∃ fx2 fx3,
      (cleanup s).fx
        = s.fx ++ s.hook_handles.map Effect.unhook ++ fx2 ++ fx3 ∧
      (∀ e ∈ fx2, ∃ w, e = Effect.showWin w true) ∧
      (∀ e ∈ fx3, ∃ w, e = Effect.destroy w)) := by
  obtain ⟨ltb, hltb, hltbe⟩ := show_taskbar_fx (afterHooks s)
  rw [cleanup_eq s, show_taskbar_black_hwnd, afterHooks_black]
  rcases hbh : s.black_window_hwnd with _ | h
  · dsimp only
    refine ⟨?_, ?_, ?_, ?_, ltb, [], ?_, hltbe, by simp⟩
    · intro t ht
      exact show_taskbar_visible_taskbar _ t (by rw [afterHooks_os]; exact ht)
    · rw [show_taskbar_black_hwnd, afterHooks_black, hbh]
    · intro h hcon
      exact absurd hcon (by simp)
    · rw [show_taskbar_hooks, afterHooks_hooks]
    · rw [hltb, afterHooks_fx]
      simp
  · obtain ⟨hne0, hnet⟩ := hb h hbh
    dsimp only
    rw [if_neg hne0]
    refine ⟨?_, rfl, ?_, ?_, ltb, [.destroy h], ?_, hltbe, by simp⟩
    · intro t ht
      have htt : t ≠ h := fun hEq => hnet (by rw [← hEq]; exact ht)
      simp only [destroy_visible]
      rw [if_neg htt]
      exact show_taskbar_visible_taskbar _ t (by rw [afterHooks_os]; exact ht)
    · intro h2 hcon
      have hh2 : h2 = h := by simpa using hcon.symm
      subst hh2
      simp [destroy_zorder, List.mem_filter]
    · rw [destroy_hooks, show_taskbar_hooks, afterHooks_hooks]
    · rw [destroy_fx, hltb, afterHooks_fx]

theorem c2_cleanup_restores_witness :
    (∀ t, sysShut.os.taskbar = some t → (cleanup sysShut).os.visible t = true) ∧
    (cleanup sysShut).black_window_hwnd = none ∧
    (∀ h, sysShut.black_window_hwnd = some h →
      h ∉ (cleanup sysShut).os.zorder) ∧
    (cleanup sysShut).hook_handles = [] ∧
    (∃ fx2 fx3,
      (cleanup sysShut).fx
        = sysShut.fx ++ sysShut.hook_handles.map Effect.unhook ++ fx2 ++ fx3 ∧
      (∀ e ∈ fx2, ∃ w, e = Effect.showWin w true) ∧
      (∀ e ∈ fx3, ∃ w, e = Effect.destroy w)) :=
  c2_cleanup_restores sysShut
    (by intro h hh; refine ⟨?_, ?_⟩ <;> simp [sysShut] at hh ⊢ <;> omega)

end BlackBars
